import Mathlib

/-!
Shallow embedding of the material-tracker client core: the status workflow
table, the error-classification layer, the read retry policy, list-query
construction with pagination metadata, and the optimistic-mutation cache
coordinator. Every definition is translated from the TypeScript source
file named in its doc comment; theorems at the end settle the spec claims.
-/

namespace MaterialTracker

/-- Status enum, from src/src/lib/supabase/types.ts (MaterialRequestStatus). -/
inductive MaterialRequestStatus
  | pending
  | approved
  | rejected
  | fulfilled
deriving DecidableEq, Repr, Fintype

/-- Priority enum, from src/src/lib/supabase/types.ts (MaterialRequestPriority). -/
inductive MaterialRequestPriority
  | low
  | medium
  | high
  | urgent
deriving DecidableEq, Repr

/-- Unit enum, from src/src/lib/supabase/types.ts (MaterialUnit). -/
inductive MaterialUnit
  | kg
  | m
  | pieces
  | liters
  | tons
  | cubic_meters
  | square_meters
deriving DecidableEq, Repr

/-- Error codes, from src/src/lib/errors/types.ts (enum ErrorCode). -/
inductive ErrorCode
  | AUTH_INVALID_CREDENTIALS
  | AUTH_SESSION_EXPIRED
  | AUTH_USER_NOT_FOUND
  | AUTH_EMAIL_NOT_CONFIRMED
  | AUTH_EMAIL_ALREADY_EXISTS
  | AUTH_WEAK_PASSWORD
  | AUTH_UNAUTHORIZED
  | NETWORK_OFFLINE
  | NETWORK_TIMEOUT
  | NETWORK_CONNECTION_FAILED
  | DB_INSERT_FAILED
  | DB_UPDATE_FAILED
  | DB_DELETE_FAILED
  | DB_FETCH_FAILED
  | DB_NOT_FOUND
  | DB_CONSTRAINT_VIOLATION
  | DB_PERMISSION_DENIED
  | VALIDATION_FAILED
  | VALIDATION_REQUIRED_FIELD
  | VALIDATION_INVALID_FORMAT
  | UNKNOWN_ERROR
  | UNEXPECTED_ERROR
  | OPERATION_CANCELLED
deriving DecidableEq, Repr, Fintype

/-- The string value each ErrorCode member carries in the TypeScript enum
(src/src/lib/errors/types.ts); getDefaultSeverity dispatches on its text. -/
def codeStr : ErrorCode → String
  | .AUTH_INVALID_CREDENTIALS => "AUTH_INVALID_CREDENTIALS"
  | .AUTH_SESSION_EXPIRED => "AUTH_SESSION_EXPIRED"
  | .AUTH_USER_NOT_FOUND => "AUTH_USER_NOT_FOUND"
  | .AUTH_EMAIL_NOT_CONFIRMED => "AUTH_EMAIL_NOT_CONFIRMED"
  | .AUTH_EMAIL_ALREADY_EXISTS => "AUTH_EMAIL_ALREADY_EXISTS"
  | .AUTH_WEAK_PASSWORD => "AUTH_WEAK_PASSWORD"
  | .AUTH_UNAUTHORIZED => "AUTH_UNAUTHORIZED"
  | .NETWORK_OFFLINE => "NETWORK_OFFLINE"
  | .NETWORK_TIMEOUT => "NETWORK_TIMEOUT"
  | .NETWORK_CONNECTION_FAILED => "NETWORK_CONNECTION_FAILED"
  | .DB_INSERT_FAILED => "DB_INSERT_FAILED"
  | .DB_UPDATE_FAILED => "DB_UPDATE_FAILED"
  | .DB_DELETE_FAILED => "DB_DELETE_FAILED"
  | .DB_FETCH_FAILED => "DB_FETCH_FAILED"
  | .DB_NOT_FOUND => "DB_NOT_FOUND"
  | .DB_CONSTRAINT_VIOLATION => "DB_CONSTRAINT_VIOLATION"
  | .DB_PERMISSION_DENIED => "DB_PERMISSION_DENIED"
  | .VALIDATION_FAILED => "VALIDATION_FAILED"
  | .VALIDATION_REQUIRED_FIELD => "VALIDATION_REQUIRED_FIELD"
  | .VALIDATION_INVALID_FORMAT => "VALIDATION_INVALID_FORMAT"
  | .UNKNOWN_ERROR => "UNKNOWN_ERROR"
  | .UNEXPECTED_ERROR => "UNEXPECTED_ERROR"
  | .OPERATION_CANCELLED => "OPERATION_CANCELLED"

/-- Severity levels, from src/src/lib/errors/types.ts (enum ErrorSeverity). -/
inductive ErrorSeverity
  | LOW
  | MEDIUM
  | HIGH
  | CRITICAL
deriving DecidableEq, Repr

/-- The semantics of JavaScript String.prototype.startsWith, written on
character lists so that proofs can evaluate it. -/
def strStartsWith (s pre : String) : Bool :=
  pre.toList.isPrefixOf s.toList

/-- AppError.getDefaultSeverity, src/src/lib/errors/types.ts lines 129-135:
dispatches on the prefix of the error code string. -/
def getDefaultSeverity (code : ErrorCode) : ErrorSeverity :=
  if strStartsWith (codeStr code) "AUTH_" then .HIGH
  else if strStartsWith (codeStr code) "NETWORK_" then .MEDIUM
  else if strStartsWith (codeStr code) "DB_" then .HIGH
  else if strStartsWith (codeStr code) "VALIDATION_" then .LOW
  else .MEDIUM

/-- AppError.isRecoverableByDefault, src/src/lib/errors/types.ts lines 137-143. -/
def isRecoverableByDefault (code : ErrorCode) : Bool :=
  !([ErrorCode.AUTH_UNAUTHORIZED, ErrorCode.DB_PERMISSION_DENIED].contains code)

/-- AppError.getDefaultUserMessage, src/src/lib/errors/types.ts lines 90-127. -/
def getDefaultUserMessage : ErrorCode → String
  | .AUTH_INVALID_CREDENTIALS => "Invalid email or password. Please try again."
  | .AUTH_SESSION_EXPIRED => "Your session has expired. Please log in again."
  | .AUTH_USER_NOT_FOUND => "No account found with this email address."
  | .AUTH_EMAIL_NOT_CONFIRMED => "Please verify your email address before logging in."
  | .AUTH_EMAIL_ALREADY_EXISTS => "An account with this email already exists."
  | .AUTH_WEAK_PASSWORD => "Password is too weak. Please use a stronger password."
  | .AUTH_UNAUTHORIZED => "You don't have permission to perform this action."
  | .NETWORK_OFFLINE => "You appear to be offline. Please check your internet connection."
  | .NETWORK_TIMEOUT => "The request timed out. Please try again."
  | .NETWORK_CONNECTION_FAILED => "Unable to connect to the server. Please try again later."
  | .DB_INSERT_FAILED => "Failed to save the data. Please try again."
  | .DB_UPDATE_FAILED => "Failed to update the data. Please try again."
  | .DB_DELETE_FAILED => "Failed to delete the item. Please try again."
  | .DB_FETCH_FAILED => "Failed to load the data. Please refresh the page."
  | .DB_NOT_FOUND => "The requested item was not found."
  | .DB_CONSTRAINT_VIOLATION => "This operation violates data constraints."
  | .DB_PERMISSION_DENIED => "You don't have permission to access this data."
  | .VALIDATION_FAILED => "Please check your input and try again."
  | .VALIDATION_REQUIRED_FIELD => "Please fill in all required fields."
  | .VALIDATION_INVALID_FORMAT => "Please check the format of your input."
  | .UNKNOWN_ERROR => "An unexpected error occurred. Please try again."
  | .UNEXPECTED_ERROR => "Something went wrong. Please try again later."
  | .OPERATION_CANCELLED => "The operation was cancelled."

/-- Constructor options for AppError (interface AppErrorOptions,
src/src/lib/errors/types.ts lines 50-58); originalError and context
are carried opaquely by the source and are not modelled. -/
structure AppErrorOptions where
  code : ErrorCode
  message : String
  userMessage : Option String := none
  severity : Option ErrorSeverity := none
  recoverable : Option Bool := none
deriving DecidableEq, Repr

/-- The classified error object (class AppError, src/src/lib/errors/types.ts). -/
structure AppError where
  code : ErrorCode
  message : String
  userMessage : String
  severity : ErrorSeverity
  recoverable : Bool
deriving DecidableEq, Repr

/-- JavaScript "a || b" on an optional string: an absent or empty string
falls back to the default. -/
def jsOrString (s : Option String) (d : String) : String :=
  match s with
  | some v => if v = "" then d else v
  | none => d

/-- The AppError constructor, src/src/lib/errors/types.ts lines 73-88:
userMessage and severity default with the JavaScript "or" operator,
recoverable with the nullish-coalescing operator. -/
def mkAppError (options : AppErrorOptions) : AppError :=
  { code := options.code
    message := options.message
    userMessage := jsOrString options.userMessage (getDefaultUserMessage options.code)
    severity := options.severity.getD (getDefaultSeverity options.code)
    recoverable := options.recoverable.getD (isRecoverableByDefault options.code) }

/-- Status transition table, from
src/src/features/material-requests/constants (STATUS_TRANSITIONS). -/
def STATUS_TRANSITIONS : MaterialRequestStatus → List MaterialRequestStatus
  | .pending => [.approved, .rejected]
  | .approved => [.fulfilled, .rejected]
  | .rejected => [.pending]
  | .fulfilled => []

/-- The StatusUpdateDropdown component (material-requests components):
availableTransitions is STATUS_TRANSITIONS[currentStatus]; a menu item (and
hence an updateStatus.mutate call) exists exactly for the members of that
list, and when the list is empty the component renders a plain badge with
no mutation trigger at all. This predicate is true exactly when the
component can issue a status-update from current to target. -/
def dropdownOffersTransition (current target : MaterialRequestStatus) : Bool :=
  (STATUS_TRANSITIONS current).contains target

/-- Modelled from the spec: the allowedTransitions table of section 4.1,
written from the spec text for comparison with the code table. -/
def allowedTransitionsSpec : MaterialRequestStatus → List MaterialRequestStatus
  | .pending => [.approved, .rejected]
  | .approved => [.fulfilled, .rejected]
  | .rejected => [.pending]
  | .fulfilled => []

/-- Retry predicate of the list query (useMaterialRequests,
src/src/features/material-requests/hooks/use-material-requests.ts lines
139-152). Every error the query function throws is an AppError, so the
instanceof guard of the source is always taken. -/
def listRetry (failureCount : Nat) (error : AppError) : Bool :=
  if error.code = ErrorCode.AUTH_SESSION_EXPIRED
      ∨ error.code = ErrorCode.DB_PERMISSION_DENIED
      ∨ error.code = ErrorCode.AUTH_UNAUTHORIZED then
    false
  else
    decide (failureCount < 3)

/-- Retry delay of the list query (use-material-requests.ts line 153). -/
def listRetryDelay (attemptIndex : Nat) : Nat :=
  min (1000 * 2 ^ attemptIndex) 30000

/-- Retry predicate of the single-entity query (useMaterialRequest,
use-material-requests.ts lines 227-239). -/
def singleRetry (failureCount : Nat) (error : AppError) : Bool :=
  if error.code = ErrorCode.DB_NOT_FOUND
      ∨ error.code = ErrorCode.DB_PERMISSION_DENIED
      ∨ error.code = ErrorCode.AUTH_SESSION_EXPIRED then
    false
  else
    decide (failureCount < 2)

/-- Number of attempts the query runtime makes against a persistently
failing fetch under a given retry predicate: one initial attempt, then one
more for every consecutive failureCount (counted from 0) at which the
predicate asks for a retry. The bound of 10 is immaterial here: both
embedded predicates refuse retries from failureCount 3 on. -/
def attemptCount (retry : Nat → AppError → Bool) (e : AppError) : Nat :=
  ((List.range 10).takeWhile (fun c => retry c e)).length + 1

/-- Requester profile row (profiles table, src/src/lib/supabase/types.ts);
the list and detail fetches select id, full_name and email. -/
structure Profile where
  id : String
  full_name : Option String
  email : String
deriving DecidableEq, Repr

/-- A material_requests row (src/src/lib/supabase/types.ts). -/
structure MaterialRequest where
  id : String
  project_id : Option String
  material_name : String
  quantity : Int
  unit : MaterialUnit
  status : MaterialRequestStatus
  priority : MaterialRequestPriority
  requested_by : String
  requested_at : String
  notes : Option String
  company_id : String
  created_at : String
  updated_at : String
deriving DecidableEq, Repr

/-- A row joined with its requester profile (MaterialRequestWithRelations,
src/src/lib/supabase/types.ts): requester is absent when the secondary
profile lookup failed or found nothing. -/
structure MaterialRequestWithRelations extends MaterialRequest where
  requester : Option Profile
deriving DecidableEq, Repr

/-- An update patch (MaterialRequestUpdate, src/src/lib/supabase/types.ts):
every column optional; a JavaScript object spread overrides exactly the
fields that are present. -/
structure MaterialRequestUpdate where
  id : Option String := none
  project_id : Option (Option String) := none
  material_name : Option String := none
  quantity : Option Int := none
  unit : Option MaterialUnit := none
  status : Option MaterialRequestStatus := none
  priority : Option MaterialRequestPriority := none
  requested_by : Option String := none
  requested_at : Option String := none
  notes : Option (Option String) := none
  company_id : Option String := none
  updated_at : Option String := none
deriving DecidableEq, Repr

/-- The JavaScript spread of an update patch into a row,
as in the onMutate optimistic patches of part_003. -/
def spreadUpdate (r : MaterialRequestWithRelations) (d : MaterialRequestUpdate) :
    MaterialRequestWithRelations :=
  { r with
    id := d.id.getD r.id
    project_id := d.project_id.getD r.project_id
    material_name := d.material_name.getD r.material_name
    quantity := d.quantity.getD r.quantity
    unit := d.unit.getD r.unit
    status := d.status.getD r.status
    priority := d.priority.getD r.priority
    requested_by := d.requested_by.getD r.requested_by
    requested_at := d.requested_at.getD r.requested_at
    notes := d.notes.getD r.notes
    company_id := d.company_id.getD r.company_id
    updated_at := d.updated_at.getD r.updated_at }

/-- Pagination metadata (PaginationMeta,
src/src/features/material-requests/types/index.ts). -/
structure PaginationMeta where
  totalCount : Nat
  totalPages : Nat
  currentPage : Nat
  pageSize : Nat
  hasNextPage : Bool
  hasPreviousPage : Bool
deriving DecidableEq, Repr

/-- A paginated list response (PaginatedResponse, instantiated at
MaterialRequestWithRelations as the list query does). -/
structure PaginatedResponse where
  data : List MaterialRequestWithRelations
  pagination : PaginationMeta
deriving DecidableEq, Repr

/-- A status filter value: a concrete status or the string "all"
(MaterialRequestFilters.status). -/
inductive StatusFilter
  | all
  | exact (s : MaterialRequestStatus)
deriving DecidableEq, Repr

/-- A priority filter value: a concrete priority or the string "all". -/
inductive PriorityFilter
  | all
  | exact (p : MaterialRequestPriority)
deriving DecidableEq, Repr

/-- List filters (MaterialRequestFilters,
src/src/features/material-requests/types/index.ts): all fields optional. -/
structure MaterialRequestFilters where
  status : Option StatusFilter := none
  priority : Option PriorityFilter := none
  search : Option String := none
deriving DecidableEq, Repr

/-- Pagination parameters (PaginationParams): zero-indexed page. -/
structure PaginationParams where
  pageIndex : Nat
  pageSize : Nat
deriving DecidableEq, Repr

/-- Sorting direction ("asc" or "desc"). -/
inductive SortDirection
  | asc
  | desc
deriving DecidableEq, Repr

/-- Sorting parameters (SortingParams). -/
structure SortingParams where
  column : String
  direction : SortDirection
deriving DecidableEq, Repr

/-- DEFAULT_PAGE_SIZE, src/src/features/material-requests/types/index.ts. -/
def DEFAULT_PAGE_SIZE : Nat := 10

/-- DEFAULT_SORTING, src/src/features/material-requests/types/index.ts. -/
def DEFAULT_SORTING : SortingParams :=
  { column := "requested_at", direction := .desc }

/-- The whitespace trim of JavaScript String.prototype.trim, written on
character lists so that proofs can evaluate it. -/
def jsTrim (s : String) : String :=
  ⟨((s.toList.dropWhile Char.isWhitespace).reverse.dropWhile
      Char.isWhitespace).reverse⟩

/-- Containment of one character sequence in another, used to give the
ilike search constraint its substring semantics. -/
def listContainsSub (needle : List Char) : List Char → Bool
  | [] => needle.isEmpty
  | c :: t => needle.isPrefixOf (c :: t) || listContainsSub needle t

/-- Case-sensitive substring test, the semantics of
JavaScript String.prototype.includes. -/
def strHasSubstr (hay needle : String) : Bool :=
  listContainsSub needle.toList hay.toList

/-- Case-insensitive substring test: the semantics of a Postgres
ilike match with the pattern percent-needle-percent. -/
def containsIgnoreCase (hay needle : String) : Bool :=
  listContainsSub (needle.toList.map Char.toLower) (hay.toList.map Char.toLower)

/-- The store query fetchMaterialRequests builds
(use-material-requests.ts lines 39-68): sort column and direction, the
inclusive row range, and the three optional filter constraints. The search
constraint keeps the trimmed needle; its match semantics is
containsIgnoreCase on material_name (ilike with a percent-wrapped
pattern). -/
structure StoreQuery where
  sortColumn : String
  sortAscending : Bool
  rangeFrom : Nat
  rangeTo : Nat
  statusEq : Option MaterialRequestStatus
  priorityEq : Option MaterialRequestPriority
  searchNeedle : Option String
deriving DecidableEq, Repr

/-- Query construction of fetchMaterialRequests
(use-material-requests.ts lines 39-68): defaults for missing pagination
and sorting, range arithmetic, and the three conditional filters. A status
or priority of "all" adds no constraint; a search is applied only when the
string and its trim are both nonempty, and the ilike needle is the trimmed
string. -/
def buildListQuery (filters : Option MaterialRequestFilters)
    (pagination : Option PaginationParams) (sorting : Option SortingParams) :
    StoreQuery :=
  let pageIndex := (pagination.map (·.pageIndex)).getD 0
  let pageSize := (pagination.map (·.pageSize)).getD DEFAULT_PAGE_SIZE
  let sortColumn := (sorting.map (·.column)).getD DEFAULT_SORTING.column
  let sortDirection := (sorting.map (·.direction)).getD DEFAULT_SORTING.direction
  { sortColumn := sortColumn
    sortAscending := sortDirection = SortDirection.asc
    rangeFrom := pageIndex * pageSize
    rangeTo := pageIndex * pageSize + pageSize - 1
    statusEq :=
      match filters.bind (·.status) with
      | some (.exact s) => some s
      | _ => none
    priorityEq :=
      match filters.bind (·.priority) with
      | some (.exact p) => some p
      | _ => none
    searchNeedle :=
      match filters.bind (·.search) with
      | some s => if s ≠ "" ∧ jsTrim s ≠ "" then some (jsTrim s) else none
      | none => none }

/-- Whether a row passes the search constraint of a built query:
a case-insensitive substring match against material_name only. -/
def searchMatches (q : StoreQuery) (r : MaterialRequest) : Bool :=
  match q.searchNeedle with
  | none => true
  | some needle => containsIgnoreCase r.material_name needle

/-- A structured error of the remote store (PostgrestError). -/
structure PostgrestError where
  code : String
  message : String
  details : String
  hint : String
deriving DecidableEq, Repr

/-- The operation tag parsePostgrestError receives. -/
inductive DbOperation
  | insert
  | update
  | delete
  | fetch
deriving DecidableEq, Repr

/-- parsePostgrestError, src/src/lib/errors/parsers.ts lines 73-138:
classify a store error by its Postgres code, then override to
DB_PERMISSION_DENIED on a row-level security message. -/
def parsePostgrestError (error : PostgrestError) (operation : DbOperation) :
    AppError :=
  let opCode : ErrorCode :=
    match operation with
    | .insert => .DB_INSERT_FAILED
    | .update => .DB_UPDATE_FAILED
    | .delete => .DB_DELETE_FAILED
    | .fetch => .DB_FETCH_FAILED
  let classified : ErrorCode × Option String :=
    if error.code = "PGRST116" then
      (.DB_NOT_FOUND, some "The requested item was not found.")
    else if error.code = "23505" then
      (.DB_CONSTRAINT_VIOLATION, some "This item already exists.")
    else if error.code = "23503" then
      (.DB_CONSTRAINT_VIOLATION,
        some "Cannot complete this operation due to related data.")
    else if error.code = "42501" then
      (.DB_PERMISSION_DENIED,
        some "You don't have permission to perform this action.")
    else if error.code = "42P01" then
      (.DB_FETCH_FAILED, some "A database error occurred. Please contact support.")
    else if error.code = "PGRST301" then
      (.AUTH_SESSION_EXPIRED, some "Your session has expired. Please log in again.")
    else
      (opCode, none)
  let final : ErrorCode × Option String :=
    if strHasSubstr error.message "row-level security" then
      (.DB_PERMISSION_DENIED, some "You don't have permission to access this data.")
    else
      classified
  mkAppError
    { code := final.1, message := error.message, userMessage := final.2 }

/-- The code of the error a failed operation surfaced, if it failed. -/
def errCode {α : Type} : Except AppError α → Option ErrorCode
  | .error e => some e.code
  | .ok _ => none

/-- fetchMaterialRequests (use-material-requests.ts lines 23-127) as a
function of the connectivity predicate and the two remote responses: the
main ranged select (rows plus exact count) and the secondary profile
lookup. The second component counts the remote calls issued. Math.ceil of
totalCount over pageSize is written as Nat ceiling division, equal to it
whenever pageSize is positive; a failed profile lookup degrades to an
empty profile list (logged, not surfaced), and the requester of each row
is looked up among the returned profiles by id. -/
def fetchMaterialRequests (online : Bool)
    (filters : Option MaterialRequestFilters)
    (pagination : Option PaginationParams) (sorting : Option SortingParams)
    (store : StoreQuery → Except PostgrestError (List MaterialRequest × Option Nat))
    (profileStore : List String → Except PostgrestError (List Profile)) :
    Except AppError PaginatedResponse × Nat :=
  if !online then
    (.error (mkAppError
      { code := .NETWORK_OFFLINE
        message := "No internet connection"
        userMessage :=
          some "You appear to be offline. Please check your connection and try again."
        recoverable := some true }), 0)
  else
    let pageIndex := (pagination.map (·.pageIndex)).getD 0
    let pageSize := (pagination.map (·.pageSize)).getD DEFAULT_PAGE_SIZE
    let q := buildListQuery filters pagination sorting
    match store q with
    | .error e => (.error (parsePostgrestError e .fetch), 1)
    | .ok (materialRequests, count) =>
      let totalCount := count.getD 0
      if materialRequests.isEmpty then
        (.ok
          { data := []
            pagination :=
              { totalCount := totalCount
                totalPages := (totalCount + pageSize - 1) / pageSize
                currentPage := pageIndex
                pageSize := pageSize
                hasNextPage := false
                hasPreviousPage := decide (pageIndex > 0) } }, 1)
      else
        let requesterIds := (materialRequests.map (·.requested_by)).dedup
        let profiles :=
          match profileStore requesterIds with
          | .ok ps => ps
          | .error _ => []
        let data := materialRequests.map (fun r =>
          { toMaterialRequest := r
            requester := profiles.find? (fun p => p.id == r.requested_by) })
        let totalPages := (totalCount + pageSize - 1) / pageSize
        (.ok
          { data := data
            pagination :=
              { totalCount := totalCount
                totalPages := totalPages
                currentPage := pageIndex
                pageSize := pageSize
                hasNextPage := decide (pageIndex < totalPages - 1)
                hasPreviousPage := decide (pageIndex > 0) } }, 2)

/-- fetchMaterialRequest (use-material-requests.ts lines 187-220): the
single-entity fetch; the secondary profile select discards its error and
degrades to an absent requester. -/
def fetchMaterialRequest (online : Bool) (id : String)
    (store : String → Except PostgrestError MaterialRequest)
    (profileStore : String → Except PostgrestError Profile) :
    Except AppError MaterialRequestWithRelations × Nat :=
  if !online then
    (.error (mkAppError
      { code := .NETWORK_OFFLINE
        message := "No internet connection"
        recoverable := some true }), 0)
  else
    match store id with
    | .error e => (.error (parsePostgrestError e .fetch), 1)
    | .ok request =>
      let profile :=
        match profileStore request.requested_by with
        | .ok p => some p
        | .error _ => none
      (.ok { toMaterialRequest := request, requester := profile }, 2)

/-- createMaterialRequest
(src/src/features/material-requests/hooks/use-create-material-request.ts
lines 12-37): offline guard, then one insert. -/
def createMaterialRequest (online : Bool)
    (store : Except PostgrestError MaterialRequest) :
    Except AppError MaterialRequest × Nat :=
  if !online then
    (.error (mkAppError
      { code := .NETWORK_OFFLINE
        message := "No internet connection"
        userMessage :=
          some "You appear to be offline. Please check your connection and try again."
        recoverable := some true }), 0)
  else
    match store with
    | .error e => (.error (parsePostgrestError e .insert), 1)
    | .ok result => (.ok result, 1)

/-- updateMaterialRequest (part_003 lines 17-46): offline guard, then one
update carrying the patch with updated_at set to the current time. -/
def updateMaterialRequest (online : Bool) (id : String)
    (data : MaterialRequestUpdate) (now : String)
    (store : String → MaterialRequestUpdate → Except PostgrestError MaterialRequest) :
    Except AppError MaterialRequest × Nat :=
  if !online then
    (.error (mkAppError
      { code := .NETWORK_OFFLINE
        message := "No internet connection"
        userMessage := some "You appear to be offline. Your changes could not be saved."
        recoverable := some true }), 0)
  else
    let updateData := { data with updated_at := some now }
    match store id updateData with
    | .error e => (.error (parsePostgrestError e .update), 1)
    | .ok result => (.ok result, 1)

/-- updateStatus (part_004 lines 17-48): offline guard, then one update
carrying the new status and updated_at. -/
def updateStatus (online : Bool) (id : String)
    (status : MaterialRequestStatus) (now : String)
    (store : String → MaterialRequestUpdate → Except PostgrestError MaterialRequest) :
    Except AppError MaterialRequest × Nat :=
  if !online then
    (.error (mkAppError
      { code := .NETWORK_OFFLINE
        message := "No internet connection"
        userMessage := some "You appear to be offline. Status could not be updated."
        recoverable := some true }), 0)
  else
    let updateData : MaterialRequestUpdate :=
      { status := some status, updated_at := some now }
    match store id updateData with
    | .error e => (.error (parsePostgrestError e .update), 1)
    | .ok result => (.ok result, 1)

/-- deleteMaterialRequest (material-requests components, delete hook
lines 333-352): offline guard, then one delete. -/
def deleteMaterialRequest (online : Bool) (id : String)
    (store : String → Except PostgrestError Unit) :
    Except AppError Unit × Nat :=
  if !online then
    (.error (mkAppError
      { code := .NETWORK_OFFLINE
        message := "No internet connection"
        userMessage := some "You appear to be offline. The item could not be deleted."
        recoverable := some true }), 0)
  else
    match store id with
    | .error e => (.error (parsePostgrestError e .delete), 1)
    | .ok _ => (.ok (), 1)

/-- The query keys of the client cache (QUERY_KEYS,
src/src/features/material-requests/constants): the base key is the array
with the single segment "material-requests"; the list key appends "list"
and the filter, pagination and sorting objects; the detail key appends
"detail" and the id. projects and profile live outside the namespace. -/
inductive QueryKey
  | materialRequests
  | materialRequestsList (filters : Option MaterialRequestFilters)
      (pagination : Option PaginationParams) (sorting : Option SortingParams)
  | materialRequest (id : String)
  | projects
  | profile
deriving DecidableEq, Repr

/-- Partial matching of the query filter with queryKey
QUERY_KEYS.materialRequests: the query library matches a cache key when
the filter key is a prefix of it, and the three material-requests keys all
start with the segment "material-requests". -/
def matchesMaterialRequestsKey : QueryKey → Bool
  | .materialRequests => true
  | .materialRequestsList _ _ _ => true
  | .materialRequest _ => true
  | .projects => false
  | .profile => false

/-- A cached query datum. The mutation hooks are typed against bare row
arrays, while the list query stores paginated responses and the detail
query stores a single joined row; all three shapes occur as runtime data,
so the cache value is their sum. -/
inductive CacheValue
  | rows (rs : List MaterialRequestWithRelations)
  | paged (resp : PaginatedResponse)
  | single (r : MaterialRequestWithRelations)
deriving DecidableEq, Repr

/-- A cache slot: its current data and whether an invalidation marked it
stale (the next read refetches it). -/
structure CacheEntry where
  value : CacheValue
  invalidated : Bool
deriving DecidableEq, Repr

/-- The client query cache: a finite map from query keys to entries,
written as an association list. -/
abbrev Cache := List (QueryKey × CacheEntry)

/-- queryClient.getQueryData: the datum stored at a key, if any. -/
def getQueryData (c : Cache) (k : QueryKey) : Option CacheValue :=
  (c.find? (fun e => e.1 == k)).map (fun e => e.2.value)

/-- The storage step shared by the setQueryData forms: replace the datum
at the key, keeping the staleness flag, or append a fresh entry. -/
def setQueryDataRaw (k : QueryKey) (v : CacheValue) (c : Cache) : Cache :=
  if c.any (fun e => e.1 == k) then
    c.map (fun e =>
      if e.1 == k then (k, { value := v, invalidated := e.2.invalidated }) else e)
  else
    c ++ [(k, { value := v, invalidated := false })]

/-- queryClient.setQueryData with a plain value. -/
def setQueryData (k : QueryKey) (v : CacheValue) (c : Cache) : Cache :=
  setQueryDataRaw k v c

/-- queryClient.setQueryData with an updater function: the updater
receives the current datum and an undefined result leaves the entry
unchanged. -/
def setQueryDataUpd (k : QueryKey)
    (f : Option CacheValue → Option CacheValue) (c : Cache) : Cache :=
  match f (getQueryData c k) with
  | none => c
  | some v => setQueryDataRaw k v c

/-- queryClient.getQueriesData with a key filter: every matching entry
with its datum, in cache order. -/
def getQueriesData (c : Cache) (p : QueryKey → Bool) :
    List (QueryKey × CacheValue) :=
  (c.filter (fun e => p e.1)).map (fun e => (e.1, e.2.value))

/-- queryClient.setQueriesData: apply an updater to every matching
entry, one setQueryData per matching key. -/
def setQueriesData (p : QueryKey → Bool)
    (f : Option CacheValue → Option CacheValue) (c : Cache) : Cache :=
  (getQueriesData c p).foldl (fun acc kv => setQueryDataUpd kv.1 f acc) c

/-- setQueryData with an updater that may throw (the delete updater calls
a method missing on non-array data): the thrown error aborts the whole
update. -/
def setQueryDataUpdE (k : QueryKey)
    (f : Option CacheValue → Except Unit (Option CacheValue)) (c : Cache) :
    Except Unit Cache :=
  match f (getQueryData c k) with
  | .error e => .error e
  | .ok none => .ok c
  | .ok (some v) => .ok (setQueryDataRaw k v c)

/-- setQueriesData with a throwing updater. -/
def setQueriesDataE (p : QueryKey → Bool)
    (f : Option CacheValue → Except Unit (Option CacheValue)) (c : Cache) :
    Except Unit Cache :=
  (getQueriesData c p).foldlM (fun acc kv => setQueryDataUpdE kv.1 f acc) c

/-- queryClient.invalidateQueries with a key predicate: mark every
matching entry stale. -/
def invalidateQueries (p : QueryKey → Bool) (c : Cache) : Cache :=
  c.map (fun e => if p e.1 then (e.1, { e.2 with invalidated := true }) else e)

/-- The optimistic updater of useUpdateStatus.onMutate (part_004 lines
80-85): on an array datum, set the status of the row with the mutated id;
any other datum (the guard on Array.isArray) is returned unchanged. -/
def statusUpdaterFn (id : String) (status : MaterialRequestStatus) :
    Option CacheValue → Option CacheValue
  | some (.rows rs) =>
    some (.rows (rs.map (fun request =>
      if request.id == id then { request with status := status } else request)))
  | other => other

/-- The optimistic updater of useUpdateMaterialRequest.onMutate (part_003
lines 79-84): on an array datum, spread the patch into the row with the
mutated id; any other datum is returned unchanged. -/
def updateUpdaterFn (id : String) (data : MaterialRequestUpdate) :
    Option CacheValue → Option CacheValue
  | some (.rows rs) =>
    some (.rows (rs.map (fun request =>
      if request.id == id then spreadUpdate request data else request)))
  | other => other

/-- The optimistic updater of useDeleteMaterialRequest.onMutate (line
385): old?.filter removes the row from an array datum and short-circuits
on absent data, but on any other datum the filter method does not exist
and a TypeError is thrown. -/
def deleteUpdaterFn (id : String) :
    Option CacheValue → Except Unit (Option CacheValue)
  | none => .ok none
  | some (.rows rs) =>
    .ok (some (.rows (rs.filter (fun request => request.id != id))))
  | some _ => .error ()

/-- The spread written by useUpdateMaterialRequest.onMutate lines 92-97
into the detail entry. Only a single row occupies the detail key at
runtime; spreading the patch into an array or paged datum would produce an
untyped object, which this model keeps as the datum itself, and the
rollback theorems assume the detail entry is not array-shaped. -/
def spreadValueUpdate (v : CacheValue) (data : MaterialRequestUpdate) : CacheValue :=
  match v with
  | .single r => .single (spreadUpdate r data)
  | other => other

/-- useUpdateStatus.onMutate (part_004 lines 65-89): snapshot every entry
matching the material-requests key, then patch each of them with the
status updater; returns the patched cache and the snapshot context. -/
def updateStatusOnMutate (id : String) (status : MaterialRequestStatus)
    (c : Cache) : Cache × List (QueryKey × CacheValue) :=
  let queries := getQueriesData c matchesMaterialRequestsKey
  let previousData := queries
  let patched := queries.foldl
    (fun acc kv => setQueryDataUpd kv.1 (statusUpdaterFn id status) acc) c
  (patched, previousData)

/-- useUpdateStatus.onError (part_004 lines 92-98): write every
snapshotted datum back at its key. -/
def updateStatusOnError (previousData : List (QueryKey × CacheValue))
    (c : Cache) : Cache :=
  previousData.foldl (fun acc kv => setQueryData kv.1 kv.2 acc) c

/-- useUpdateStatus.onSettled (part_004 lines 121-125): invalidate the
material-requests key namespace. -/
def updateStatusOnSettled (c : Cache) : Cache :=
  invalidateQueries matchesMaterialRequestsKey c

/-- useUpdateMaterialRequest.onMutate (part_003 lines 65-101): snapshot
the datum at the base key, patch every matching entry with the update
updater, read the detail entry (after the patch, which leaves non-array
data unchanged), and when it exists overwrite it with the spread of the
patch; returns the new cache and the (previousRequests, previousRequest)
context. -/
def updateRequestOnMutate (id : String) (data : MaterialRequestUpdate)
    (c : Cache) : Cache × (Option CacheValue × Option CacheValue) :=
  let previousRequests := getQueryData c .materialRequests
  let c1 := setQueriesData matchesMaterialRequestsKey (updateUpdaterFn id data) c
  let previousRequest := getQueryData c1 (.materialRequest id)
  let c2 :=
    match previousRequest with
    | some v => setQueryData (.materialRequest id) (spreadValueUpdate v data) c1
    | none => c1
  (c2, (previousRequests, previousRequest))

/-- useUpdateMaterialRequest.onError (part_003 lines 104-117): restore
the base entry and the detail entry from the context, each when its
snapshot exists. -/
def updateRequestOnError (context : Option CacheValue × Option CacheValue)
    (id : String) (c : Cache) : Cache :=
  let c1 :=
    match context.1 with
    | some v => setQueryData .materialRequests v c
    | none => c
  match context.2 with
  | some v => setQueryData (.materialRequest id) v c1
  | none => c1

/-- useUpdateMaterialRequest.onSettled (part_003 lines 140-147):
invalidate the material-requests namespace and the detail key of the
mutated id. -/
def updateRequestOnSettled (id : String) (c : Cache) : Cache :=
  invalidateQueries (fun k => k == QueryKey.materialRequest id)
    (invalidateQueries matchesMaterialRequestsKey c)

/-- useDeleteMaterialRequest.onMutate (lines 371-390): snapshot the base
entry, then filter the deleted id out of every matching entry; none when
the updater threw a TypeError on a non-array datum (the hook then fails
before the remote call with no context saved). -/
def deleteRequestOnMutate (id : String) (c : Cache) :
    Option (Cache × Option CacheValue) :=
  let previousRequests := getQueryData c .materialRequests
  match setQueriesDataE matchesMaterialRequestsKey (deleteUpdaterFn id) c with
  | .ok patched => some (patched, previousRequests)
  | .error _ => none

/-- useDeleteMaterialRequest.onError (lines 393-400): restore the base
entry from the context when its snapshot exists. -/
def deleteRequestOnError (previousRequests : Option CacheValue) (c : Cache) :
    Cache :=
  match previousRequests with
  | some v => setQueryData .materialRequests v c
  | none => c

/-- useDeleteMaterialRequest.onSettled (lines 423-427): invalidate the
material-requests namespace. -/
def deleteRequestOnSettled (c : Cache) : Cache :=
  invalidateQueries matchesMaterialRequestsKey c

/-- Reading a one-step-longer cache splits on the head key. -/
theorem getQueryData_cons (e : QueryKey × CacheEntry) (t : Cache) (k : QueryKey) :
    getQueryData (e :: t) k =
      if e.1 = k then some e.2.value else getQueryData t k := by
  by_cases h : e.1 = k <;> simp [getQueryData, List.find?_cons, h]

/-- Reading an appended cache reads the left part first. -/
theorem getQueryData_append (c d : Cache) (k : QueryKey) :
    getQueryData (c ++ d) k = (getQueryData c k).or (getQueryData d k) := by
  simp only [getQueryData, List.find?_append]
  cases c.find? (fun e => e.1 == k) <;> simp

/-- Reading through the replacement map of setQueryDataRaw: the target
key sees the new datum when it was present, other keys are unchanged. -/
theorem getQueryData_replaceMap (k k' : QueryKey) (v : CacheValue) (c : Cache) :
    getQueryData
      (c.map (fun e =>
        if e.1 == k then (k, { value := v, invalidated := e.2.invalidated }) else e))
      k' =
      if k' = k then (getQueryData c k).map (fun _ => v) else getQueryData c k' := by
  induction c with
  | nil => by_cases h : k' = k <;> simp [getQueryData, h]
  | cons e t ih =>
    simp only [List.map_cons]
    by_cases he : e.1 = k
    · by_cases hk : k' = k
      · subst hk
        simp only [he, beq_self_eq_true, if_true, getQueryData_cons, ih]
        simp [he]
      · simp only [he, beq_self_eq_true, if_true, getQueryData_cons, ih]
        simp [he, hk, Ne.symm hk]
    · by_cases hk : k' = k
      · subst hk
        have hbe : (e.1 == k') = false := by simp [he]
        simp only [hbe, Bool.false_eq_true, if_false, getQueryData_cons, ih]
        simp [he]
      · have hbe : (e.1 == k) = false := by simp [he]
        simp only [hbe, Bool.false_eq_true, if_false, getQueryData_cons, ih]
        by_cases he' : e.1 = k' <;> simp [he', hk]

/-- A key no entry carries reads as absent. -/
theorem getQueryData_eq_none_of_not_any (k : QueryKey) (c : Cache)
    (hany : ¬ c.any (fun e => e.1 == k)) : getQueryData c k = none := by
  cases hf : List.find? (fun e => e.1 == k) c with
  | none => simp [getQueryData, hf]
  | some e =>
    exact absurd
      (List.any_eq_true.mpr ⟨e, List.mem_of_find?_eq_some hf, List.find?_some hf⟩)
      hany

/-- Writing a datum stores it at its key. -/
theorem getQueryData_setRaw_self (k : QueryKey) (v : CacheValue) (c : Cache) :
    getQueryData (setQueryDataRaw k v c) k = some v := by
  unfold setQueryDataRaw
  by_cases hany : c.any (fun e => e.1 == k)
  · obtain ⟨e, he, hk⟩ := List.any_eq_true.mp hany
    have hsome : (List.find? (fun e => e.1 == k) c).isSome :=
      List.find?_isSome.mpr ⟨e, he, hk⟩
    obtain ⟨w, hw⟩ := Option.isSome_iff_exists.mp hsome
    have hg : getQueryData c k = some w.2.value := by simp [getQueryData, hw]
    rw [if_pos hany, getQueryData_replaceMap, if_pos rfl, hg]
    rfl
  · rw [if_neg hany, getQueryData_append,
      getQueryData_eq_none_of_not_any k c hany]
    simp [getQueryData_cons, getQueryData]

/-- Writing a datum leaves every other key unchanged. -/
theorem getQueryData_setRaw_other (k k' : QueryKey) (v : CacheValue) (c : Cache)
    (h : k' ≠ k) :
    getQueryData (setQueryDataRaw k v c) k' = getQueryData c k' := by
  unfold setQueryDataRaw
  by_cases hany : c.any (fun e => e.1 == k)
  · rw [if_pos hany, getQueryData_replaceMap, if_neg h]
  · rw [if_neg hany, getQueryData_append]
    have hone : getQueryData [(k, { value := v, invalidated := false })] k' = none := by
      simp [getQueryData_cons, Ne.symm h, getQueryData]
    rw [hone]
    cases hc : getQueryData c k' <;> simp

/-- An updater write leaves every other key unchanged. -/
theorem getQueryData_setUpd_other (k k' : QueryKey)
    (f : Option CacheValue → Option CacheValue) (c : Cache) (h : k' ≠ k) :
    getQueryData (setQueryDataUpd k f c) k' = getQueryData c k' := by
  unfold setQueryDataUpd
  cases f (getQueryData c k) with
  | none => rfl
  | some v => exact getQueryData_setRaw_other k k' v c h

/-- An updater write stores the updated datum at its key, or keeps the
old one when the updater returns nothing. -/
theorem getQueryData_setUpd_self (k : QueryKey)
    (f : Option CacheValue → Option CacheValue) (c : Cache) :
    getQueryData (setQueryDataUpd k f c) k =
      match f (getQueryData c k) with
      | none => getQueryData c k
      | some v => some v := by
  unfold setQueryDataUpd
  cases f (getQueryData c k) with
  | none => rfl
  | some v => simp [getQueryData_setRaw_self]

/-- A fold of updater writes over keys other than k leaves k unchanged. -/
theorem foldUpd_untouched (f : Option CacheValue → Option CacheValue)
    (todo : List (QueryKey × CacheValue)) (c : Cache) (k : QueryKey)
    (h : ∀ kv ∈ todo, kv.1 ≠ k) :
    getQueryData (todo.foldl (fun acc kv => setQueryDataUpd kv.1 f acc) c) k
      = getQueryData c k := by
  induction todo generalizing c with
  | nil => rfl
  | cons kv t ih =>
    rw [List.foldl_cons, ih _ (fun x hx => h x (List.mem_cons_of_mem _ hx)),
      getQueryData_setUpd_other _ _ _ _ (Ne.symm (h kv (List.mem_cons_self _ _)))]

/-- What a fold of updater writes leaves at a key: the update of the
first snapshot datum for that key, or the old datum when no snapshot
entry carries the key. The snapshot keys are distinct and each snapshot
datum is the current datum of its key. -/
theorem foldUpd_char (f : Option CacheValue → Option CacheValue)
    (todo : List (QueryKey × CacheValue)) (c : Cache) (k : QueryKey)
    (hnd : (todo.map Prod.fst).Nodup)
    (hval : ∀ kv ∈ todo, getQueryData c kv.1 = some kv.2) :
    getQueryData (todo.foldl (fun acc kv => setQueryDataUpd kv.1 f acc) c) k =
      match todo.find? (fun kv => kv.1 == k) with
      | some kv => some ((f (some kv.2)).getD kv.2)
      | none => getQueryData c k := by
  induction todo generalizing c with
  | nil => rfl
  | cons kv t ih =>
    rw [List.map_cons] at hnd
    obtain ⟨hnotin, hndt⟩ := List.nodup_cons.mp hnd
    rw [List.foldl_cons]
    by_cases hk : kv.1 = k
    · have hfind : List.find? (fun x => x.1 == k) (kv :: t) = some kv := by
        simp [List.find?_cons, hk]
      rw [hfind]
      have huntouched : ∀ x ∈ t, x.1 ≠ k := by
        intro x hx hxk
        have hmem : x.1 ∈ List.map Prod.fst t := List.mem_map_of_mem Prod.fst hx
        rw [hxk, ← hk] at hmem
        exact hnotin hmem
      rw [foldUpd_untouched _ _ _ _ huntouched]
      rw [← hk, getQueryData_setUpd_self,
        hval kv (List.mem_cons_self _ _)]
      cases hf : f (some kv.2) <;> simp [hf]
    · have hfind : List.find? (fun x => x.1 == k) (kv :: t) =
          List.find? (fun x => x.1 == k) t := by
        simp [List.find?_cons, hk]
      rw [hfind]
      have hval' : ∀ x ∈ t, getQueryData (setQueryDataUpd kv.1 f c) x.1 = some x.2 := by
        intro x hx
        have hxne : x.1 ≠ kv.1 := by
          intro hxx
          exact hnotin (hxx ▸ List.mem_map_of_mem Prod.fst hx)
        rw [getQueryData_setUpd_other _ _ _ _ hxne]
        exact hval x (List.mem_cons_of_mem _ hx)
      rw [ih _ hndt hval']
      cases List.find? (fun x => x.1 == k) t with
      | some kv' => rfl
      | none => exact getQueryData_setUpd_other _ _ _ _ (Ne.symm hk)

/-- A fold of plain writes over keys other than k leaves k unchanged. -/
theorem foldSet_untouched (todo : List (QueryKey × CacheValue)) (c : Cache)
    (k : QueryKey) (h : ∀ kv ∈ todo, kv.1 ≠ k) :
    getQueryData (todo.foldl (fun acc kv => setQueryData kv.1 kv.2 acc) c) k
      = getQueryData c k := by
  induction todo generalizing c with
  | nil => rfl
  | cons kv t ih =>
    rw [List.foldl_cons, ih _ (fun x hx => h x (List.mem_cons_of_mem _ hx))]
    exact getQueryData_setRaw_other _ _ _ _ (Ne.symm (h kv (List.mem_cons_self _ _)))

/-- What a fold of plain writes leaves at a key: the first written datum
for that key, or the old one when none is written (the written keys are
distinct). -/
theorem foldSet_char (todo : List (QueryKey × CacheValue)) (c : Cache)
    (k : QueryKey) (hnd : (todo.map Prod.fst).Nodup) :
    getQueryData (todo.foldl (fun acc kv => setQueryData kv.1 kv.2 acc) c) k =
      match todo.find? (fun kv => kv.1 == k) with
      | some kv => some kv.2
      | none => getQueryData c k := by
  induction todo generalizing c with
  | nil => rfl
  | cons kv t ih =>
    rw [List.map_cons] at hnd
    obtain ⟨hnotin, hndt⟩ := List.nodup_cons.mp hnd
    rw [List.foldl_cons]
    by_cases hk : kv.1 = k
    · have hfind : List.find? (fun x => x.1 == k) (kv :: t) = some kv := by
        simp [List.find?_cons, hk]
      rw [hfind]
      have huntouched : ∀ x ∈ t, x.1 ≠ k := by
        intro x hx hxk
        have hmem : x.1 ∈ List.map Prod.fst t := List.mem_map_of_mem Prod.fst hx
        rw [hxk, ← hk] at hmem
        exact hnotin hmem
      rw [foldSet_untouched _ _ _ huntouched]
      show getQueryData (setQueryDataRaw kv.1 kv.2 c) k = some kv.2
      rw [← hk] at *
      exact getQueryData_setRaw_self _ _ _
    · have hfind : List.find? (fun x => x.1 == k) (kv :: t) =
          List.find? (fun x => x.1 == k) t := by
        simp [List.find?_cons, hk]
      rw [hfind, ih _ hndt]
      cases List.find? (fun x => x.1 == k) t with
      | some kv' => rfl
      | none => exact getQueryData_setRaw_other _ _ _ _ (Ne.symm hk)

/-- A snapshot entry carries a key of the cache that matches the filter. -/
theorem getQueriesData_mem (c : Cache) (p : QueryKey → Bool)
    (kv : QueryKey × CacheValue) (h : kv ∈ getQueriesData c p) :
    kv.1 ∈ c.map Prod.fst ∧ p kv.1 = true := by
  obtain ⟨e, he, heq⟩ := List.mem_map.mp h
  obtain ⟨hec, hep⟩ := List.mem_filter.mp he
  subst heq
  exact ⟨List.mem_map_of_mem Prod.fst hec, hep⟩

/-- Snapshot keys are distinct when the cache keys are. -/
theorem getQueriesData_keys_nodup (c : Cache) (p : QueryKey → Bool)
    (hnd : (c.map Prod.fst).Nodup) :
    ((getQueriesData c p).map Prod.fst).Nodup := by
  have hsub : (getQueriesData c p).map Prod.fst =
      (c.filter (fun e => p e.1)).map Prod.fst := by
    simp [getQueriesData, List.map_map]
  rw [hsub]
  exact hnd.sublist ((List.filter_sublist c).map Prod.fst)

/-- A snapshot entry carries the current datum of its key. -/
theorem getQueriesData_val (c : Cache) (p : QueryKey → Bool)
    (kv : QueryKey × CacheValue) (hnd : (c.map Prod.fst).Nodup)
    (h : kv ∈ getQueriesData c p) :
    getQueryData c kv.1 = some kv.2 := by
  induction c with
  | nil => simp [getQueriesData] at h
  | cons e t ih =>
    rw [List.map_cons] at hnd
    obtain ⟨hnotin, hndt⟩ := List.nodup_cons.mp hnd
    rw [getQueryData_cons]
    by_cases hpe : p e.1
    · have hsplit : getQueriesData (e :: t) p =
          (e.1, e.2.value) :: getQueriesData t p := by
        simp [getQueriesData, List.filter_cons, hpe]
      rw [hsplit] at h
      rcases List.mem_cons.mp h with hhead | htail
      · subst hhead
        simp
      · have hne : e.1 ≠ kv.1 := by
          intro hh
          exact hnotin (hh ▸ (getQueriesData_mem t p kv htail).1)
        rw [if_neg hne]
        exact ih hndt htail
    · have hsplit : getQueriesData (e :: t) p = getQueriesData t p := by
        simp [getQueriesData, List.filter_cons, hpe]
      rw [hsplit] at h
      have hne : e.1 ≠ kv.1 := by
        intro hh
        exact hnotin (hh ▸ (getQueriesData_mem t p kv h).1)
      rw [if_neg hne]
      exact ih hndt h

/-- The first snapshot entry for a key: the current datum of the key
when the key matches the filter, nothing otherwise. -/
theorem getQueriesData_find? (c : Cache) (p : QueryKey → Bool) (k : QueryKey)
    (hnd : (c.map Prod.fst).Nodup) :
    (getQueriesData c p).find? (fun kv => kv.1 == k) =
      if p k then (getQueryData c k).map (fun v => (k, v)) else none := by
  induction c with
  | nil => cases hp : p k <;> simp [getQueriesData, getQueryData]
  | cons e t ih =>
    rw [List.map_cons] at hnd
    obtain ⟨hnotin, hndt⟩ := List.nodup_cons.mp hnd
    by_cases hpe : p e.1
    · have hsplit : getQueriesData (e :: t) p =
          (e.1, e.2.value) :: getQueriesData t p := by
        simp [getQueriesData, List.filter_cons, hpe]
      rw [hsplit]
      by_cases hek : e.1 = k
      · rw [List.find?_cons_of_pos _ (by simpa using hek)]
        rw [← hek, hpe, getQueryData_cons, if_pos rfl]
        simp [hek]
      · rw [List.find?_cons_of_neg _ (by simpa using hek), ih hndt,
          getQueryData_cons, if_neg hek]
    · have hsplit : getQueriesData (e :: t) p = getQueriesData t p := by
        simp [getQueriesData, List.filter_cons, hpe]
      rw [hsplit, ih hndt, getQueryData_cons]
      by_cases hek : e.1 = k
      · rw [← hek]
        simp [hpe]
      · rw [if_neg hek]

/-- A successful throwing write leaves every other key unchanged. -/
theorem setQueryDataUpdE_ok_other (k k' : QueryKey)
    (f : Option CacheValue → Except Unit (Option CacheValue)) (c c' : Cache)
    (hok : setQueryDataUpdE k f c = .ok c') (h : k' ≠ k) :
    getQueryData c' k' = getQueryData c k' := by
  unfold setQueryDataUpdE at hok
  cases hf : f (getQueryData c k) with
  | error e => rw [hf] at hok; cases hok
  | ok o =>
    cases o with
    | none =>
      rw [hf] at hok
      cases hok
      rfl
    | some v =>
      rw [hf] at hok
      cases hok
      exact getQueryData_setRaw_other k k' v c h

/-- A successful fold of throwing writes over keys other than k leaves
k unchanged. -/
theorem foldUpdE_untouched (f : Option CacheValue → Except Unit (Option CacheValue))
    (todo : List (QueryKey × CacheValue)) (c c' : Cache) (k : QueryKey)
    (hok : todo.foldlM (fun acc kv => setQueryDataUpdE kv.1 f acc) c = .ok c')
    (h : ∀ kv ∈ todo, kv.1 ≠ k) :
    getQueryData c' k = getQueryData c k := by
  induction todo generalizing c with
  | nil =>
    simp only [List.foldlM_nil] at hok
    cases hok
    rfl
  | cons kv t ih =>
    simp only [List.foldlM_cons] at hok
    cases hstep : setQueryDataUpdE kv.1 f c with
    | error e => rw [hstep] at hok; cases hok
    | ok c1 =>
      rw [hstep] at hok
      have h1 : getQueryData c1 k = getQueryData c k :=
        setQueryDataUpdE_ok_other _ _ _ _ _ hstep
          (Ne.symm (h kv (List.mem_cons_self _ _)))
      rw [← h1]
      exact ih _ hok (fun x hx => h x (List.mem_cons_of_mem _ hx))

/-- A key present among the cache keys carries a datum. -/
theorem getQueryData_isSome_of_key_mem (c : Cache) (k : QueryKey)
    (h : k ∈ c.map Prod.fst) : (getQueryData c k).isSome := by
  obtain ⟨e, he, heq⟩ := List.mem_map.mp h
  have hsome : (List.find? (fun e => e.1 == k) c).isSome :=
    List.find?_isSome.mpr ⟨e, he, by simpa using heq⟩
  obtain ⟨w, hw⟩ := Option.isSome_iff_exists.mp hsome
  simp [getQueryData, hw]

/-- Whether a cached datum is a bare row array. -/
def CacheValue.isRows : CacheValue → Bool
  | .rows _ => true
  | _ => false

/-- setQueryData with a plain value stores the datum at its key. -/
theorem getQueryData_set_self (k : QueryKey) (v : CacheValue) (c : Cache) :
    getQueryData (setQueryData k v c) k = some v :=
  getQueryData_setRaw_self k v c

/-- setQueryData with a plain value leaves every other key unchanged. -/
theorem getQueryData_set_other (k k' : QueryKey) (v : CacheValue) (c : Cache)
    (h : k' ≠ k) :
    getQueryData (setQueryData k v c) k' = getQueryData c k' :=
  getQueryData_setRaw_other k k' v c h

/-- An entry of an invalidated cache: when its key matches the filter its
stale flag is set, and otherwise the entry was already in the cache. -/
theorem invalidateQueries_mem (p : QueryKey → Bool) (c : Cache) (k : QueryKey)
    (e : CacheEntry) (h : (k, e) ∈ invalidateQueries p c) :
    (p k = true → e.invalidated = true) ∧ (p k = false → (k, e) ∈ c) := by
  obtain ⟨e₀, he₀, heq⟩ := List.mem_map.mp h
  by_cases hp : p e₀.1
  · rw [if_pos hp] at heq
    injection heq with hk he
    constructor
    · intro _
      rw [← he]
    · intro hpk
      rw [← hk, hp] at hpk
      cases hpk
  · rw [if_neg hp] at heq
    have hk : e₀.1 = k := by rw [heq]
    constructor
    · intro hpk
      rw [hk] at hp
      exact absurd hpk hp
    · intro _
      rw [← heq]
      exact he₀

/-- A concrete material_requests row used by the concrete-input theorems:
request x1 in status pending. -/
def sampleRow : MaterialRequest :=
  { id := "x1", project_id := none, material_name := "Steel Bars",
    quantity := 500, unit := .kg, status := .pending, priority := .high,
    requested_by := "u1", requested_at := "t0", notes := none,
    company_id := "c1", created_at := "t0", updated_at := "t0" }

/-- The sample row joined with an unresolved requester. -/
def xRequest : MaterialRequestWithRelations :=
  { toMaterialRequest := sampleRow, requester := none }

/-- A concrete list query key. -/
def listKey0 : QueryKey :=
  .materialRequestsList none (some { pageIndex := 0, pageSize := 10 }) none

/-- The pagination metadata of the concrete cached page. -/
def meta0 : PaginationMeta :=
  { totalCount := 1, totalPages := 1, currentPage := 0, pageSize := 10,
    hasNextPage := false, hasPreviousPage := false }

/-- A concrete cache holding one list entry: the paginated response whose
single row is request x1 with status pending, as the list query stores it. -/
def cache0 : Cache :=
  [(listKey0,
    { value := .paged { data := [xRequest], pagination := meta0 },
      invalidated := false })]

/-- The paginated response of the concrete successful fetch of page 9 of
95 rows with page size 10. -/
def listResp95 : PaginatedResponse :=
  { data := List.replicate 5 xRequest,
    pagination :=
      { totalCount := 95, totalPages := 10, currentPage := 9, pageSize := 10,
        hasNextPage := false, hasPreviousPage := true } }

/-- The paginated response of the concrete empty-page fetch: page 1,
page size 10, reported total 95, zero returned rows. -/
def emptyResp95 : PaginatedResponse :=
  { data := [],
    pagination :=
      { totalCount := 95, totalPages := 10, currentPage := 1, pageSize := 10,
        hasNextPage := false, hasPreviousPage := true } }

/-- Claim C3: a requested transition from a to b succeeds exactly when b is
in the transition table entry of a, the table being pending to approved or
rejected, approved to fulfilled or rejected, rejected to pending, and
fulfilled terminal; in particular fulfilled to pending is refused (and the
dropdown for a fulfilled request offers no transition at all, so no remote
call can be issued), while rejected to pending is offered. -/
theorem status_transition_table_matches_spec :
    ∀ a b : MaterialRequestStatus,
      (dropdownOffersTransition a b = true ↔ b ∈ allowedTransitionsSpec a)
      ∧ dropdownOffersTransition .fulfilled .pending = false
      ∧ dropdownOffersTransition .rejected .pending = true
      ∧ STATUS_TRANSITIONS .fulfilled = [] := by
  decide

/-- Claim C4, counterexample: the claim says a read failing with DbNotFound
makes exactly one attempt, but the list query retry predicate asks for a
retry of a DbNotFound failure (its suppression list has no DbNotFound), so
a persistent DbNotFound list read makes four attempts; dually the
single-entity query retries AuthUnauthorized, making three attempts. -/
theorem list_retry_retries_db_not_found :
    listRetry 0 (mkAppError { code := .DB_NOT_FOUND, message := "not found" }) = true
    ∧ attemptCount listRetry
        (mkAppError { code := .DB_NOT_FOUND, message := "not found" }) = 4
    ∧ singleRetry 0 (mkAppError { code := .AUTH_UNAUTHORIZED, message := "no" }) = true
    ∧ attemptCount singleRetry
        (mkAppError { code := .AUTH_UNAUTHORIZED, message := "no" }) = 3 := by
  decide

/-- Claim C4, amended: the list query retries a failed fetch with delay
min(1000 times 2 to the attempt, 30000) up to three retries, except
AuthSessionExpired, DbPermissionDenied and AuthUnauthorized which get
exactly one attempt (DbNotFound is retried); the single-entity query
retries up to two retries, except DbNotFound, DbPermissionDenied and
AuthSessionExpired which get exactly one attempt (AuthUnauthorized is
retried). -/
theorem read_retry_policy (n : Nat) (e : AppError) :
    (listRetry n e = true ↔
      ¬(e.code = .AUTH_SESSION_EXPIRED ∨ e.code = .DB_PERMISSION_DENIED
        ∨ e.code = .AUTH_UNAUTHORIZED) ∧ n < 3)
    ∧ (singleRetry n e = true ↔
      ¬(e.code = .DB_NOT_FOUND ∨ e.code = .DB_PERMISSION_DENIED
        ∨ e.code = .AUTH_SESSION_EXPIRED) ∧ n < 2)
    ∧ listRetryDelay n = min (1000 * 2 ^ n) 30000
    ∧ ((e.code = .AUTH_SESSION_EXPIRED ∨ e.code = .DB_PERMISSION_DENIED
        ∨ e.code = .AUTH_UNAUTHORIZED) → attemptCount listRetry e = 1)
    ∧ (¬(e.code = .AUTH_SESSION_EXPIRED ∨ e.code = .DB_PERMISSION_DENIED
        ∨ e.code = .AUTH_UNAUTHORIZED) → attemptCount listRetry e = 4)
    ∧ ((e.code = .DB_NOT_FOUND ∨ e.code = .DB_PERMISSION_DENIED
        ∨ e.code = .AUTH_SESSION_EXPIRED) → attemptCount singleRetry e = 1)
    ∧ (¬(e.code = .DB_NOT_FOUND ∨ e.code = .DB_PERMISSION_DENIED
        ∨ e.code = .AUTH_SESSION_EXPIRED) → attemptCount singleRetry e = 3) := by
  refine ⟨?_, ?_, rfl, ?_, ?_, ?_, ?_⟩
  · by_cases h : e.code = .AUTH_SESSION_EXPIRED ∨ e.code = .DB_PERMISSION_DENIED
        ∨ e.code = .AUTH_UNAUTHORIZED <;> simp [listRetry, h]
  · by_cases h : e.code = .DB_NOT_FOUND ∨ e.code = .DB_PERMISSION_DENIED
        ∨ e.code = .AUTH_SESSION_EXPIRED <;> simp [singleRetry, h]
  · intro h
    have hfn : (fun c => listRetry c e) = (fun _ => false) := by
      funext c
      unfold listRetry
      rw [if_pos h]
    unfold attemptCount
    rw [hfn]
    decide
  · intro h
    have hfn : (fun c => listRetry c e) = (fun c => decide (c < 3)) := by
      funext c
      unfold listRetry
      rw [if_neg h]
    unfold attemptCount
    rw [hfn]
    decide
  · intro h
    have hfn : (fun c => singleRetry c e) = (fun _ => false) := by
      funext c
      unfold singleRetry
      rw [if_pos h]
    unfold attemptCount
    rw [hfn]
    decide
  · intro h
    have hfn : (fun c => singleRetry c e) = (fun c => decide (c < 2)) := by
      funext c
      unfold singleRetry
      rw [if_neg h]
    unfold attemptCount
    rw [hfn]
    decide

/-- Claim C8: every operation that would contact the remote store checks
connectivity first; when offline, each of the six operations fails with an
error of kind NetworkOffline having issued zero remote calls. -/
theorem offline_operations_fail_fast :
    ∀ (filters : Option MaterialRequestFilters)
      (pagination : Option PaginationParams) (sorting : Option SortingParams)
      (store : StoreQuery → Except PostgrestError (List MaterialRequest × Option Nat))
      (profileStore : List String → Except PostgrestError (List Profile))
      (id : String) (store1 : String → Except PostgrestError MaterialRequest)
      (pstore1 : String → Except PostgrestError Profile)
      (istore : Except PostgrestError MaterialRequest)
      (d : MaterialRequestUpdate) (now : String)
      (ustore : String → MaterialRequestUpdate → Except PostgrestError MaterialRequest)
      (st : MaterialRequestStatus)
      (dstore : String → Except PostgrestError Unit),
      errCode (fetchMaterialRequests false filters pagination sorting store
        profileStore).1 = some .NETWORK_OFFLINE
      ∧ (fetchMaterialRequests false filters pagination sorting store profileStore).2 = 0
      ∧ errCode (fetchMaterialRequest false id store1 pstore1).1 = some .NETWORK_OFFLINE
      ∧ (fetchMaterialRequest false id store1 pstore1).2 = 0
      ∧ errCode (createMaterialRequest false istore).1 = some .NETWORK_OFFLINE
      ∧ (createMaterialRequest false istore).2 = 0
      ∧ errCode (updateMaterialRequest false id d now ustore).1 = some .NETWORK_OFFLINE
      ∧ (updateMaterialRequest false id d now ustore).2 = 0
      ∧ errCode (updateStatus false id st now ustore).1 = some .NETWORK_OFFLINE
      ∧ (updateStatus false id st now ustore).2 = 0
      ∧ errCode (deleteMaterialRequest false id dstore).1 = some .NETWORK_OFFLINE
      ∧ (deleteMaterialRequest false id dstore).2 = 0 := by
  intros
  exact ⟨rfl, rfl, rfl, rfl, rfl, rfl, rfl, rfl, rfl, rfl, rfl, rfl⟩

/-- Claim C9: a classified error constructed without severity or
recoverable overrides derives severity from the code prefix (auth and db
high, network medium, validation low) and is non-recoverable exactly for
AuthUnauthorized and DbPermissionDenied. -/
theorem error_default_severity_and_recoverable (code : ErrorCode) (msg : String)
    (um : Option String) :
    ((strStartsWith (codeStr code) "AUTH_" = true
        ∨ strStartsWith (codeStr code) "DB_" = true) →
      (mkAppError ⟨code, msg, um, none, none⟩).severity = .HIGH)
    ∧ (strStartsWith (codeStr code) "NETWORK_" = true →
      (mkAppError ⟨code, msg, um, none, none⟩).severity = .MEDIUM)
    ∧ (strStartsWith (codeStr code) "VALIDATION_" = true →
      (mkAppError ⟨code, msg, um, none, none⟩).severity = .LOW)
    ∧ ((mkAppError ⟨code, msg, um, none, none⟩).recoverable = false ↔
      code = .AUTH_UNAUTHORIZED ∨ code = .DB_PERMISSION_DENIED) := by
  have hsev : (mkAppError ⟨code, msg, um, none, none⟩).severity
      = getDefaultSeverity code := rfl
  have hrec : (mkAppError ⟨code, msg, um, none, none⟩).recoverable
      = isRecoverableByDefault code := rfl
  rw [hsev, hrec]
  cases code <;> decide

/-- Claim C7: the list query applies no status constraint when the status
filter is absent or all, no priority constraint when the priority filter is
absent or all; search constrains material_name only, by a case-insensitive
substring match on the whitespace-trimmed needle, and an empty or
whitespace-only search equals no search filter, so searching two blanks
builds the same query as searching the empty string. -/
theorem list_filter_normalization (f : MaterialRequestFilters)
    (p : Option PaginationParams) (s : Option SortingParams) (str : String) :
    ((buildListQuery (some f) p s).statusEq = none ↔
      f.status = none ∨ f.status = some .all)
    ∧ ((buildListQuery (some f) p s).priorityEq = none ↔
      f.priority = none ∨ f.priority = some .all)
    ∧ (jsTrim str = "" →
      buildListQuery (some { f with search := some str }) p s =
        buildListQuery (some { f with search := none }) p s)
    ∧ (buildListQuery (some { f with search := some "  " }) p s =
        buildListQuery (some { f with search := some "" }) p s)
    ∧ (jsTrim str ≠ "" →
      (buildListQuery (some { f with search := some str }) p s).searchNeedle =
        some (jsTrim str))
    ∧ (∀ (q : StoreQuery) (r r' : MaterialRequest),
        r.material_name = r'.material_name →
          searchMatches q r = searchMatches q r') := by
  refine ⟨?_, ?_, ?_, ?_, ?_, ?_⟩
  · cases hst : f.status with
    | none => simp [buildListQuery, hst]
    | some sf => cases sf <;> simp [buildListQuery, hst]
  · cases hpr : f.priority with
    | none => simp [buildListQuery, hpr]
    | some pf => cases pf <;> simp [buildListQuery, hpr]
  · intro h
    simp [buildListQuery, h]
  · simp [buildListQuery, show jsTrim "  " = "" from by decide]
  · intro h
    have hne : str ≠ "" := by
      intro hh
      rw [hh] at h
      exact h (by decide)
    simp [buildListQuery, h, hne]
  · intro q r r' h
    cases hn : q.searchNeedle <;> simp [searchMatches, hn, h, containsIgnoreCase]

/-- Claim C6: a successful list fetch whose rows are the page slice of a
totalCount-row result (the store contract) carries totalPages equal to the
ceiling of totalCount over pageSize, hasNextPage equal to pageIndex less
than totalPages minus one, and hasPreviousPage equal to pageIndex greater
than zero. -/
theorem list_pagination_metadata
    (filters : Option MaterialRequestFilters) (sorting : Option SortingParams)
    (pageIndex pageSize totalCount : Nat) (rows : List MaterialRequest)
    (profileStore : List String → Except PostgrestError (List Profile))
    (resp : PaginatedResponse)
    (hps : 0 < pageSize)
    (hrows : rows.length = min pageSize (totalCount - pageIndex * pageSize))
    (hok : (fetchMaterialRequests true filters
      (some { pageIndex := pageIndex, pageSize := pageSize }) sorting
      (fun _ => .ok (rows, some totalCount)) profileStore).1 = .ok resp) :
    resp.pagination.totalCount = totalCount
    ∧ resp.pagination.totalPages = (totalCount + pageSize - 1) / pageSize
    ∧ resp.pagination.hasNextPage =
      decide (pageIndex < (totalCount + pageSize - 1) / pageSize - 1)
    ∧ resp.pagination.hasPreviousPage = decide (0 < pageIndex) := by
  by_cases hempty : rows.isEmpty
  · have hnil : rows = [] := List.isEmpty_iff.mp hempty
    subst hnil
    simp [fetchMaterialRequests] at hok
    subst hok
    have hle : totalCount ≤ pageIndex * pageSize := by
      simp at hrows
      omega
    have htp : (totalCount + pageSize - 1) / pageSize ≤ pageIndex := by
      have h1 : (totalCount + pageSize - 1) / pageSize < pageIndex + 1 := by
        rw [Nat.div_lt_iff_lt_mul hps, Nat.succ_mul]
        omega
      omega
    have hnot : ¬ (pageIndex < (totalCount + pageSize - 1) / pageSize - 1) := by
      omega
    simp [hnot]
  · simp [fetchMaterialRequests, hempty] at hok
    subst hok
    simp

/-- Claim C6, witness: totalCount 95, pageSize 10, pageIndex 9 yields
totalPages 10, no next page, a previous page. -/
theorem list_pagination_metadata_witness :
    0 < 10
    ∧ (List.replicate 5 sampleRow).length = min 10 (95 - 9 * 10)
    ∧ (fetchMaterialRequests true none
        (some { pageIndex := 9, pageSize := 10 }) none
        (fun _ => .ok (List.replicate 5 sampleRow, some 95))
        (fun _ => .ok [])).1 = .ok listResp95
    ∧ (listResp95.pagination.totalCount = 95
      ∧ listResp95.pagination.totalPages = (95 + 10 - 1) / 10
      ∧ listResp95.pagination.hasNextPage = decide (9 < (95 + 10 - 1) / 10 - 1)
      ∧ listResp95.pagination.hasPreviousPage = decide (0 < 9)) :=
  ⟨by decide, by decide, by rfl,
    list_pagination_metadata none none 9 10 95 (List.replicate 5 sampleRow)
      (fun _ => .ok []) listResp95 (by decide) (by decide) (by rfl)⟩

/-- Claim C10: a successful list fetch returning zero rows yields empty
data and no next page unconditionally, even when the reported total and
page position would indicate more pages, while totalPages is still the
ceiling of totalCount over pageSize and hasPreviousPage is pageIndex
greater than zero. -/
theorem empty_page_yields_no_next_page
    (filters : Option MaterialRequestFilters)
    (pagination : Option PaginationParams) (sorting : Option SortingParams)
    (count : Option Nat)
    (profileStore : List String → Except PostgrestError (List Profile))
    (resp : PaginatedResponse)
    (hps : 0 < (pagination.map (fun pp => pp.pageSize)).getD DEFAULT_PAGE_SIZE)
    (hok : (fetchMaterialRequests true filters pagination sorting
      (fun _ => .ok ([], count)) profileStore).1 = .ok resp) :
    resp.data = []
    ∧ resp.pagination.hasNextPage = false
    ∧ resp.pagination.totalPages =
      (count.getD 0 + (pagination.map (fun pp => pp.pageSize)).getD DEFAULT_PAGE_SIZE - 1)
        / (pagination.map (fun pp => pp.pageSize)).getD DEFAULT_PAGE_SIZE
    ∧ resp.pagination.hasPreviousPage =
      decide (0 < (pagination.map (fun pp => pp.pageIndex)).getD 0) := by
  simp [fetchMaterialRequests] at hok
  subst hok
  simp

/-- Claim C10, witness: an empty page at index 1 of a 95-row total still
reports ten pages but no next page. -/
theorem empty_page_yields_no_next_page_witness :
    0 < ((some { pageIndex := 1, pageSize := 10 } : Option PaginationParams).map
      (fun pp => pp.pageSize)).getD DEFAULT_PAGE_SIZE
    ∧ (fetchMaterialRequests true none
        (some { pageIndex := 1, pageSize := 10 }) none
        (fun _ => .ok ([], some 95)) (fun _ => .ok [])).1 = .ok emptyResp95
    ∧ (emptyResp95.data = []
      ∧ emptyResp95.pagination.hasNextPage = false
      ∧ emptyResp95.pagination.totalPages =
        ((some 95 : Option Nat).getD 0 +
          ((some { pageIndex := 1, pageSize := 10 } : Option PaginationParams).map
            (fun pp => pp.pageSize)).getD DEFAULT_PAGE_SIZE - 1)
          / ((some { pageIndex := 1, pageSize := 10 } : Option PaginationParams).map
            (fun pp => pp.pageSize)).getD DEFAULT_PAGE_SIZE
      ∧ emptyResp95.pagination.hasPreviousPage =
        decide (0 < ((some { pageIndex := 1, pageSize := 10 } : Option PaginationParams).map
          (fun pp => pp.pageIndex)).getD 0)) :=
  ⟨by decide, by rfl,
    empty_page_yields_no_next_page none (some { pageIndex := 1, pageSize := 10 })
      none (some 95) (fun _ => .ok []) emptyResp95 (by decide) (by rfl)⟩

/-- Claim C2, code behavior at the failing input: the cache holds the list
entry the list query actually stores (a paginated response whose single
row is request x1 with status pending), and the status-update onMutate
leaves the whole cache unchanged, because its optimistic updater patches
only bare-array data and returns every other shape untouched; an observer
reading the cache right after the mutation is issued still sees pending. -/
theorem optimistic_status_patch_leaves_paged_entry_unchanged :
    xRequest.status = .pending
    ∧ getQueryData cache0 listKey0 =
      some (.paged { data := [xRequest], pagination := meta0 })
    ∧ (updateStatusOnMutate "x1" .approved cache0).1 = cache0 :=
  ⟨rfl, by decide, by decide⟩

/-- Claim C5: once an update, status-change or delete mutation settles,
every cache entry under the material-requests namespace is invalidated —
in particular every list entry and the detail entry of the mutated id,
whose keys all match the invalidated namespace. -/
theorem settled_invalidates_material_requests_entries
    (c : Cache) (id : String) (k : QueryKey)
    (hk : matchesMaterialRequestsKey k = true) :
    (∀ e : CacheEntry, (k, e) ∈ updateStatusOnSettled c → e.invalidated = true)
    ∧ (∀ e : CacheEntry, (k, e) ∈ updateRequestOnSettled id c → e.invalidated = true)
    ∧ (∀ e : CacheEntry, (k, e) ∈ deleteRequestOnSettled c → e.invalidated = true)
    ∧ (∀ (f : Option MaterialRequestFilters) (pp : Option PaginationParams)
        (ss : Option SortingParams),
        matchesMaterialRequestsKey (QueryKey.materialRequestsList f pp ss) = true)
    ∧ matchesMaterialRequestsKey (QueryKey.materialRequest id) = true := by
  refine ⟨?_, ?_, ?_, fun _ _ _ => rfl, rfl⟩
  · intro e he
    exact (invalidateQueries_mem _ _ _ _ he).1 hk
  · intro e he
    unfold updateRequestOnSettled at he
    by_cases hdk : (k == QueryKey.materialRequest id) = true
    · exact (invalidateQueries_mem _ _ _ _ he).1 hdk
    · have hin := (invalidateQueries_mem _ _ _ _ he).2
        (Bool.not_eq_true _ ▸ hdk)
      exact (invalidateQueries_mem _ _ _ _ hin).1 hk
  · intro e he
    exact (invalidateQueries_mem _ _ _ _ he).1 hk

/-- Claim C5, witness: in the concrete cache, the list entry is stale
after each settle. -/
theorem settled_invalidates_material_requests_entries_witness :
    matchesMaterialRequestsKey listKey0 = true
    ∧ ((∀ e : CacheEntry, (listKey0, e) ∈ updateStatusOnSettled cache0 →
        e.invalidated = true)
      ∧ (∀ e : CacheEntry, (listKey0, e) ∈ updateRequestOnSettled "x1" cache0 →
        e.invalidated = true)
      ∧ (∀ e : CacheEntry, (listKey0, e) ∈ deleteRequestOnSettled cache0 →
        e.invalidated = true)
      ∧ (∀ (f : Option MaterialRequestFilters) (pp : Option PaginationParams)
          (ss : Option SortingParams),
          matchesMaterialRequestsKey (QueryKey.materialRequestsList f pp ss) = true)
      ∧ matchesMaterialRequestsKey (QueryKey.materialRequest "x1") = true) :=
  ⟨rfl, settled_invalidates_material_requests_entries cache0 "x1" listKey0 rfl⟩

/-- Claim C1: when the remote call of a mutation fails, the rollback
restores every snapshotted entry verbatim: the status-change hook restores
every key of the cache to its pre-mutation datum, the update hook restores
its two snapshots (the base entry and the detail entry of the mutated id),
and the delete hook restores its base-entry snapshot. The cache keys are
distinct and the detail entry, when present, is not array-shaped (at
runtime it holds a single joined row). -/
theorem mutation_error_rollback_restores_snapshots
    (c : Cache) (id : String) (st : MaterialRequestStatus)
    (d : MaterialRequestUpdate)
    (hnd : (c.map Prod.fst).Nodup)
    (hshape : (getQueryData c (QueryKey.materialRequest id)).all
      (fun v => !v.isRows) = true) :
    (∀ k, getQueryData
        (updateStatusOnError (updateStatusOnMutate id st c).2
          (updateStatusOnMutate id st c).1) k = getQueryData c k)
    ∧ getQueryData
        (updateRequestOnError (updateRequestOnMutate id d c).2 id
          (updateRequestOnMutate id d c).1) QueryKey.materialRequests
        = getQueryData c QueryKey.materialRequests
    ∧ getQueryData
        (updateRequestOnError (updateRequestOnMutate id d c).2 id
          (updateRequestOnMutate id d c).1) (QueryKey.materialRequest id)
        = getQueryData c (QueryKey.materialRequest id)
    ∧ (∀ cp, deleteRequestOnMutate id c = some cp →
        getQueryData (deleteRequestOnError cp.2 cp.1) QueryKey.materialRequests
          = getQueryData c QueryKey.materialRequests) := by
  have hsnapnd := getQueriesData_keys_nodup c matchesMaterialRequestsKey hnd
  have hsnapval : ∀ kv ∈ getQueriesData c matchesMaterialRequestsKey,
      getQueryData c kv.1 = some kv.2 :=
    fun kv hkv => getQueriesData_val c _ kv hnd hkv
  refine ⟨?_, ?_, ?_, ?_⟩
  · -- status-change rollback restores every key
    intro k
    show getQueryData
      ((getQueriesData c matchesMaterialRequestsKey).foldl
        (fun acc kv => setQueryData kv.1 kv.2 acc)
        ((getQueriesData c matchesMaterialRequestsKey).foldl
          (fun acc kv => setQueryDataUpd kv.1 (statusUpdaterFn id st) acc) c)) k
      = getQueryData c k
    rw [foldSet_char _ _ _ hsnapnd, getQueriesData_find? c _ k hnd]
    by_cases hpk : matchesMaterialRequestsKey k
    · rw [if_pos hpk]
      cases hv : getQueryData c k with
      | some v => simp
      | none =>
        rw [foldUpd_char _ _ _ _ hsnapnd hsnapval,
          getQueriesData_find? c _ k hnd, if_pos hpk, hv]
        simp
    · rw [if_neg hpk]
      rw [foldUpd_char _ _ _ _ hsnapnd hsnapval,
        getQueriesData_find? c _ k hnd, if_neg hpk]
  · -- update rollback restores the base entry
    have hkd : matchesMaterialRequestsKey (QueryKey.materialRequest id) = true := rfl
    have hc1 : ∀ (k' : QueryKey), matchesMaterialRequestsKey k' = true →
        getQueryData
          (setQueriesData matchesMaterialRequestsKey (updateUpdaterFn id d) c) k' =
          (match getQueryData c k' with
          | some v => some ((updateUpdaterFn id d (some v)).getD v)
          | none => none) := by
      intro k' hp
      unfold setQueriesData
      rw [foldUpd_char _ _ _ _ hsnapnd hsnapval,
        getQueriesData_find? c _ k' hnd, if_pos hp]
      cases hv : getQueryData c k' <;> simp
    have hc1kd : getQueryData
        (setQueriesData matchesMaterialRequestsKey (updateUpdaterFn id d) c)
        (QueryKey.materialRequest id) = getQueryData c (QueryKey.materialRequest id) := by
      rw [hc1 _ hkd]
      cases hv : getQueryData c (QueryKey.materialRequest id) with
      | none => rfl
      | some v =>
        have hvr : v.isRows = false := by
          rw [hv] at hshape
          simpa using hshape
        cases v with
        | rows rs => simp [CacheValue.isRows] at hvr
        | paged q => simp [updateUpdaterFn]
        | single r => simp [updateUpdaterFn]
    have hc1kb : getQueryData c QueryKey.materialRequests = none →
        getQueryData
          (setQueriesData matchesMaterialRequestsKey (updateUpdaterFn id d) c)
          QueryKey.materialRequests = none := by
      intro hb
      rw [hc1 QueryKey.materialRequests rfl, hb]
    simp only [updateRequestOnMutate, updateRequestOnError, hc1kd]
    cases hd : getQueryData c (QueryKey.materialRequest id) with
    | some vd =>
      cases hb : getQueryData c QueryKey.materialRequests with
      | some vb =>
        simp only [hd, hb]
        rw [getQueryData_set_other _ _ _ _
            (fun h => QueryKey.noConfusion h),
          getQueryData_set_self]
      | none =>
        simp only [hd, hb]
        rw [getQueryData_set_other _ _ _ _
            (fun h => QueryKey.noConfusion h),
          getQueryData_set_other _ _ _ _
            (fun h => QueryKey.noConfusion h)]
        exact hc1kb hb
    | none =>
      cases hb : getQueryData c QueryKey.materialRequests with
      | some vb =>
        simp only [hd, hb]
        rw [getQueryData_set_self]
      | none =>
        simp only [hd, hb]
        exact hc1kb hb
  · -- update rollback restores the detail entry
    have hkd : matchesMaterialRequestsKey (QueryKey.materialRequest id) = true := rfl
    have hc1 : ∀ (k' : QueryKey), matchesMaterialRequestsKey k' = true →
        getQueryData
          (setQueriesData matchesMaterialRequestsKey (updateUpdaterFn id d) c) k' =
          (match getQueryData c k' with
          | some v => some ((updateUpdaterFn id d (some v)).getD v)
          | none => none) := by
      intro k' hp
      unfold setQueriesData
      rw [foldUpd_char _ _ _ _ hsnapnd hsnapval,
        getQueriesData_find? c _ k' hnd, if_pos hp]
      cases hv : getQueryData c k' <;> simp
    have hc1kd : getQueryData
        (setQueriesData matchesMaterialRequestsKey (updateUpdaterFn id d) c)
        (QueryKey.materialRequest id) = getQueryData c (QueryKey.materialRequest id) := by
      rw [hc1 _ hkd]
      cases hv : getQueryData c (QueryKey.materialRequest id) with
      | none => rfl
      | some v =>
        have hvr : v.isRows = false := by
          rw [hv] at hshape
          simpa using hshape
        cases v with
        | rows rs => simp [CacheValue.isRows] at hvr
        | paged q => simp [updateUpdaterFn]
        | single r => simp [updateUpdaterFn]
    simp only [updateRequestOnMutate, updateRequestOnError, hc1kd]
    cases hd : getQueryData c (QueryKey.materialRequest id) with
    | some vd =>
      cases hb : getQueryData c QueryKey.materialRequests with
      | some vb =>
        simp only [hd, hb]
        rw [getQueryData_set_self]
      | none =>
        simp only [hd, hb]
        rw [getQueryData_set_self]
    | none =>
      cases hb : getQueryData c QueryKey.materialRequests with
      | some vb =>
        simp only [hd, hb]
        rw [getQueryData_set_other _ _ _ _
            (fun h => QueryKey.noConfusion h)]
        exact hc1kd.trans hd
      | none =>
        simp only [hd, hb]
        exact hc1kd.trans hd
  · -- delete rollback restores the base entry
    intro cp hcp
    unfold deleteRequestOnMutate at hcp
    cases hE : setQueriesDataE matchesMaterialRequestsKey (deleteUpdaterFn id) c with
    | error u => rw [hE] at hcp; cases hcp
    | ok c2 =>
      rw [hE] at hcp
      injection hcp with hcp'
      subst hcp'
      unfold deleteRequestOnError
      cases hb : getQueryData c QueryKey.materialRequests with
      | some vb =>
        simp only [hb]
        rw [getQueryData_set_self]
      | none =>
        simp only [hb]
        have huntouched : ∀ kv ∈ getQueriesData c matchesMaterialRequestsKey,
            kv.1 ≠ QueryKey.materialRequests := by
          intro kv hkv hkb
          have hmem := (getQueriesData_mem c _ kv hkv).1
          rw [hkb] at hmem
          have hsome := getQueryData_isSome_of_key_mem c _ hmem
          rw [hb] at hsome
          cases hsome
        unfold setQueriesDataE at hE
        exact (foldUpdE_untouched _ _ _ _ _ hE huntouched).trans hb

/-- Claim C1, witness: in the concrete cache whose list entry shows x1
pending, a failed status-update to approved rolls every key back to its
pre-mutation datum. -/
theorem mutation_error_rollback_restores_snapshots_witness :
    (cache0.map Prod.fst).Nodup
    ∧ (getQueryData cache0 (QueryKey.materialRequest "x1")).all
      (fun v => !v.isRows) = true
    ∧ ((∀ k, getQueryData
        (updateStatusOnError (updateStatusOnMutate "x1" .approved cache0).2
          (updateStatusOnMutate "x1" .approved cache0).1) k = getQueryData cache0 k)
      ∧ getQueryData
          (updateRequestOnError
            (updateRequestOnMutate "x1" { status := some .approved } cache0).2 "x1"
            (updateRequestOnMutate "x1" { status := some .approved } cache0).1)
          QueryKey.materialRequests
          = getQueryData cache0 QueryKey.materialRequests
      ∧ getQueryData
          (updateRequestOnError
            (updateRequestOnMutate "x1" { status := some .approved } cache0).2 "x1"
            (updateRequestOnMutate "x1" { status := some .approved } cache0).1)
          (QueryKey.materialRequest "x1")
          = getQueryData cache0 (QueryKey.materialRequest "x1")
      ∧ (∀ cp, deleteRequestOnMutate "x1" cache0 = some cp →
          getQueryData (deleteRequestOnError cp.2 cp.1) QueryKey.materialRequests
            = getQueryData cache0 QueryKey.materialRequests)) :=
  ⟨by decide, by decide,
    mutation_error_rollback_restores_snapshots cache0 "x1" .approved
      { status := some .approved } (by decide) (by decide)⟩

end MaterialTracker
